import Mathlib

/-!
Verification of the energy-cost estimation core of the SmartCare HVAC
calculator (`src/components/EnergyCalculator.tsx`).

The estimation core is the useEffect body of the component together with
the `updateCosts` helper.  It is embedded shallowly below as the pure function
`costEstimator : Inputs → Result`.  Numbers are modelled as rationals `ℚ`
(the source computes with JavaScript doubles; every formula here is plain
field arithmetic, so `ℚ` evaluates the same expressions exactly).  The two
manual cost fields are strings in the source, read through
`parseFloat(s) || 0`; they are modelled as `Option ℚ` — `some q` when the
string parses to the number `q`, `none` when it is unparseable or missing
(`parseFloat` returns `NaN`, which `|| 0` coerces to `0`).

A second, instrumented copy `costEstimatorChecked` routes every division of
the source through a checked division `cdiv` that fails on a zero
denominator; it is used to locate where a division by a zero user-supplied
SEER can occur.
-/

namespace EnergyCalculator

inductive HeatingSystem where
  | oilFurnace
  | electricBaseboards
  | gasFurnace
deriving DecidableEq, Repr

inductive CoolingSystem where
  | centralAC
  | windowAC
  | noCooling
deriving DecidableEq, Repr

/-- Constant `SYSTEM_EFFICIENCY.heating` from the source. -/
def heatingEfficiency : HeatingSystem → ℚ
  | .oilFurnace => 0.80
  | .electricBaseboards => 1.0
  | .gasFurnace => 0.85

/-- Constant `SYSTEM_EFFICIENCY.cooling` from the source: the per-variant base SEER ratings. -/
def coolingBaseSEER : CoolingSystem → ℚ
  | .centralAC => 10
  | .windowAC => 8
  | .noCooling => 0

/-- Constant `SYSTEM_EFFICIENCY.heatPump.heating` (COP). -/
def heatPumpHeatingCOP : ℚ := 3.5

/-- Constant `SYSTEM_EFFICIENCY.heatPump.cooling` (SEER). -/
def heatPumpCoolingSEER : ℚ := 18

/-- Constant `ENERGY_CONSUMPTION.heating` (BTU per sq ft). -/
def energyConsumptionHeating : ℚ := 40

/-- Constant `ENERGY_CONSUMPTION.cooling` (BTU per sq ft). -/
def energyConsumptionCooling : ℚ := 20

/-- Constant `SEASON_HOURS.heating`. -/
def seasonHoursHeating : ℚ := 1200

/-- Constant `SEASON_HOURS.cooling`. -/
def seasonHoursCooling : ℚ := 800

/-- The `Savings` interface of the source. -/
structure Savings where
  heating : ℚ
  cooling : ℚ
  total : ℚ
deriving DecidableEq, Repr

/-- The `MonthlyData` interface of the source. -/
structure MonthlyData where
  name : String
  currentTotal : ℚ
  heatPumpTotal : ℚ
  savings : ℚ
deriving DecidableEq, Repr

/-- The user-editable state of the component, i.e. the input configuration of
one estimation run.  The manual cost strings are modelled as their parse
results (`none` = unparseable or missing). -/
structure Inputs where
  homeSize : ℚ
  heatingSystem : HeatingSystem
  coolingSystem : CoolingSystem
  electricityRate : ℚ
  oilRate : ℚ
  gasRate : ℚ
  currentSEER : ℚ
  useManualInput : Bool
  manualHeatingCost : Option ℚ
  manualCoolingCost : Option ℚ
deriving DecidableEq, Repr

/-- The calculated state set by `updateCosts`: the value record of one
estimation run. -/
structure Result where
  currentHeatingCost : ℚ
  currentCoolingCost : ℚ
  heatPumpHeatingCost : ℚ
  heatPumpCoolingCost : ℚ
  monthlySavings : Savings
  annualSavings : Savings
  monthlyData : List MonthlyData
deriving DecidableEq, Repr

/-- Model of the source idiom that reads a manual cost string: an unparseable
string gives `NaN`, which the trailing or-with-zero coerces to `0`. -/
def parsedOr0 : Option ℚ → ℚ
  | some q => q
  | none => 0

/-- Month labels from `updateCosts`. -/
def months : List String :=
  ["Jan", "Feb", "Mar", "Apr", "May", "Jun", "Jul", "Aug", "Sep", "Oct", "Nov", "Dec"]

/-- Constant `heatingDistribution` from `updateCosts`. -/
def heatingDistribution : List ℚ :=
  [0.18, 0.16, 0.12, 0.08, 0.04, 0.01, 0.01, 0.01, 0.03, 0.07, 0.12, 0.17]

/-- Constant `coolingDistribution` from `updateCosts`. -/
def coolingDistribution : List ℚ :=
  [0.01, 0.01, 0.02, 0.05, 0.10, 0.18, 0.22, 0.20, 0.12, 0.06, 0.02, 0.01]

/-- The `updateCosts` helper of the source.  The source loop walks the three
constant 12-element arrays in lockstep by index; the zip below is that loop. -/
def updateCosts (currentHeating currentCooling heatPumpHeating heatPumpCooling : ℚ) :
    Result :=
  let heatingSavings := currentHeating - heatPumpHeating
  let coolingSavings := currentCooling - heatPumpCooling
  let totalSavings := heatingSavings + coolingSavings
  let data : List MonthlyData :=
    (months.zip (heatingDistribution.zip coolingDistribution)).map fun p =>
      let currentMonthHeating := currentHeating * p.2.1
      let currentMonthCooling := currentCooling * p.2.2
      let heatPumpMonthHeating := heatPumpHeating * p.2.1
      let heatPumpMonthCooling := heatPumpCooling * p.2.2
      { name := p.1
        currentTotal := currentMonthHeating + currentMonthCooling
        heatPumpTotal := heatPumpMonthHeating + heatPumpMonthCooling
        savings := (currentMonthHeating + currentMonthCooling) -
          (heatPumpMonthHeating + heatPumpMonthCooling) }
  { currentHeatingCost := currentHeating
    currentCoolingCost := currentCooling
    heatPumpHeatingCost := heatPumpHeating
    heatPumpCoolingCost := heatPumpCooling
    monthlySavings :=
      { heating := heatingSavings / 12
        cooling := coolingSavings / 12
        total := totalSavings / 12 }
    annualSavings :=
      { heating := heatingSavings
        cooling := coolingSavings
        total := totalSavings }
    monthlyData := data }

/-- The estimation core: the useEffect body of the component, run on every
input change.  Named after the CostEstimator component of the spec. -/
def costEstimator (inp : Inputs) : Result :=
  if inp.useManualInput then
    let currentHeating := parsedOr0 inp.manualHeatingCost
    let currentCooling := parsedOr0 inp.manualCoolingCost
    let heatPumpHeating := currentHeating * (1 / heatPumpHeatingCOP)
    let heatPumpCooling :=
      if inp.coolingSystem ≠ CoolingSystem.noCooling then
        currentCooling * (inp.currentSEER / heatPumpCoolingSEER)
      else 0
    updateCosts currentHeating currentCooling heatPumpHeating heatPumpCooling
  else
    let heatingBTU := inp.homeSize * energyConsumptionHeating
    let heatingCost :=
      match inp.heatingSystem with
      | .oilFurnace =>
        ((heatingBTU * seasonHoursHeating) /
          (36000 * heatingEfficiency .oilFurnace)) * inp.oilRate
      | .electricBaseboards =>
        ((heatingBTU * seasonHoursHeating) /
          (3412 * heatingEfficiency .electricBaseboards)) * inp.electricityRate
      | .gasFurnace =>
        ((heatingBTU * seasonHoursHeating) /
          (35300 * heatingEfficiency .gasFurnace)) * inp.gasRate
    let coolingCost :=
      if inp.coolingSystem ≠ CoolingSystem.noCooling then
        let coolingBTU := inp.homeSize * energyConsumptionCooling
        ((coolingBTU * seasonHoursCooling) / (3412 * (inp.currentSEER / 10))) *
          inp.electricityRate
      else 0
    let heatPumpHeatingCost :=
      ((inp.homeSize * energyConsumptionHeating * seasonHoursHeating) /
        (3412 * heatPumpHeatingCOP)) * inp.electricityRate
    let heatPumpCoolingCost :=
      if inp.coolingSystem ≠ CoolingSystem.noCooling then
        ((inp.homeSize * energyConsumptionCooling * seasonHoursCooling) /
          (3412 * (heatPumpCoolingSEER / 10))) * inp.electricityRate
      else 0
    updateCosts heatingCost coolingCost heatPumpHeatingCost heatPumpCoolingCost

/-! ### Instrumented copy with checked division

`costEstimatorChecked` is the same computation with every division of the
source routed through `cdiv`, which fails (returns `none`) on a zero
denominator instead of producing an IEEE infinity.  It is used to locate
which inputs can make the source divide by zero. -/

/-- Checked division: `none` exactly when the denominator is zero. -/
def cdiv (a b : ℚ) : Option ℚ :=
  if b = 0 then none else some (a / b)

/-- Variant of `updateCosts` with its three divisions by 12 checked. -/
def updateCostsChecked (currentHeating currentCooling heatPumpHeating heatPumpCooling : ℚ) :
    Option Result := do
  let heatingSavings := currentHeating - heatPumpHeating
  let coolingSavings := currentCooling - heatPumpCooling
  let totalSavings := heatingSavings + coolingSavings
  let mh ← cdiv heatingSavings 12
  let mc ← cdiv coolingSavings 12
  let mt ← cdiv totalSavings 12
  let data : List MonthlyData :=
    (months.zip (heatingDistribution.zip coolingDistribution)).map fun p =>
      let currentMonthHeating := currentHeating * p.2.1
      let currentMonthCooling := currentCooling * p.2.2
      let heatPumpMonthHeating := heatPumpHeating * p.2.1
      let heatPumpMonthCooling := heatPumpCooling * p.2.2
      { name := p.1
        currentTotal := currentMonthHeating + currentMonthCooling
        heatPumpTotal := heatPumpMonthHeating + heatPumpMonthCooling
        savings := (currentMonthHeating + currentMonthCooling) -
          (heatPumpMonthHeating + heatPumpMonthCooling) }
  pure
    { currentHeatingCost := currentHeating
      currentCoolingCost := currentCooling
      heatPumpHeatingCost := heatPumpHeating
      heatPumpCoolingCost := heatPumpCooling
      monthlySavings := { heating := mh, cooling := mc, total := mt }
      annualSavings :=
        { heating := heatingSavings
          cooling := coolingSavings
          total := totalSavings }
      monthlyData := data }

/-- The estimation core with every division of the source checked. -/
def costEstimatorChecked (inp : Inputs) : Option Result :=
  if inp.useManualInput then do
    let currentHeating := parsedOr0 inp.manualHeatingCost
    let currentCooling := parsedOr0 inp.manualCoolingCost
    let copInverse ← cdiv 1 heatPumpHeatingCOP
    let heatPumpHeating := currentHeating * copInverse
    let heatPumpCooling ←
      if inp.coolingSystem ≠ CoolingSystem.noCooling then do
        let scale ← cdiv inp.currentSEER heatPumpCoolingSEER
        pure (currentCooling * scale)
      else pure (0 : ℚ)
    updateCostsChecked currentHeating currentCooling heatPumpHeating heatPumpCooling
  else do
    let heatingBTU := inp.homeSize * energyConsumptionHeating
    let heatingCost ←
      match inp.heatingSystem with
      | .oilFurnace => do
        let oilLiters ← cdiv (heatingBTU * seasonHoursHeating)
          (36000 * heatingEfficiency .oilFurnace)
        pure (oilLiters * inp.oilRate)
      | .electricBaseboards => do
        let kWh ← cdiv (heatingBTU * seasonHoursHeating)
          (3412 * heatingEfficiency .electricBaseboards)
        pure (kWh * inp.electricityRate)
      | .gasFurnace => do
        let gasVolume ← cdiv (heatingBTU * seasonHoursHeating)
          (35300 * heatingEfficiency .gasFurnace)
        pure (gasVolume * inp.gasRate)
    let coolingCost ←
      if inp.coolingSystem ≠ CoolingSystem.noCooling then do
        let coolingBTU := inp.homeSize * energyConsumptionCooling
        let seerFactor ← cdiv inp.currentSEER 10
        let kWh ← cdiv (coolingBTU * seasonHoursCooling) (3412 * seerFactor)
        pure (kWh * inp.electricityRate)
      else pure (0 : ℚ)
    let heatPumpHeatingKWh ← cdiv
      (inp.homeSize * energyConsumptionHeating * seasonHoursHeating)
      (3412 * heatPumpHeatingCOP)
    let heatPumpHeatingCost := heatPumpHeatingKWh * inp.electricityRate
    let heatPumpCoolingCost ←
      if inp.coolingSystem ≠ CoolingSystem.noCooling then do
        let seerFactor ← cdiv heatPumpCoolingSEER 10
        let kWh ← cdiv (inp.homeSize * energyConsumptionCooling * seasonHoursCooling)
          (3412 * seerFactor)
        pure (kWh * inp.electricityRate)
      else pure (0 : ℚ)
    updateCostsChecked heatingCost coolingCost heatPumpHeatingCost heatPumpCoolingCost

/-! ### Concrete input configurations used in scenarios and witnesses -/

/-- Scenario A of the spec: non-manual, Oil Furnace + Central AC, default rates. -/
def scenarioA : Inputs :=
  { homeSize := 1500, heatingSystem := .oilFurnace, coolingSystem := .centralAC,
    electricityRate := 0.15, oilRate := 1.20, gasRate := 1.50, currentSEER := 10,
    useManualInput := false, manualHeatingCost := some 0, manualCoolingCost := some 0 }

/-- Scenario C of the spec: manual mode, heating cost 1000, cooling cost 500. -/
def scenarioC : Inputs :=
  { homeSize := 1500, heatingSystem := .oilFurnace, coolingSystem := .centralAC,
    electricityRate := 0.15, oilRate := 1.20, gasRate := 1.50, currentSEER := 10,
    useManualInput := true, manualHeatingCost := some 1000, manualCoolingCost := some 500 }

/-- Scenario D of the spec: manual mode with unparseable cost strings. -/
def scenarioD : Inputs :=
  { homeSize := 1500, heatingSystem := .oilFurnace, coolingSystem := .centralAC,
    electricityRate := 0.15, oilRate := 1.20, gasRate := 1.50, currentSEER := 10,
    useManualInput := true, manualHeatingCost := none, manualCoolingCost := none }

/-- Manual mode with No Cooling selected but a non-zero manual cooling cost. -/
def noCoolingManualInput : Inputs :=
  { homeSize := 1500, heatingSystem := .oilFurnace, coolingSystem := .noCooling,
    electricityRate := 0.15, oilRate := 1.20, gasRate := 1.50, currentSEER := 10,
    useManualInput := true, manualHeatingCost := some 1000, manualCoolingCost := some 500 }

/-- Non-manual configuration with every rate equal to zero. -/
def zeroRateInput : Inputs :=
  { homeSize := 1000, heatingSystem := .oilFurnace, coolingSystem := .centralAC,
    electricityRate := 0, oilRate := 0, gasRate := 0, currentSEER := 10,
    useManualInput := false, manualHeatingCost := some 0, manualCoolingCost := some 0 }

/-- Non-manual configuration with a zero user-supplied SEER and cooling present. -/
def zeroSeerInput : Inputs :=
  { homeSize := 1500, heatingSystem := .oilFurnace, coolingSystem := .centralAC,
    electricityRate := 0.15, oilRate := 1.20, gasRate := 1.50, currentSEER := 0,
    useManualInput := false, manualHeatingCost := some 0, manualCoolingCost := some 0 }

/-- Manual configuration with a zero user-supplied SEER and cooling present. -/
def zeroSeerManualInput : Inputs :=
  { homeSize := 1500, heatingSystem := .oilFurnace, coolingSystem := .centralAC,
    electricityRate := 0.15, oilRate := 1.20, gasRate := 1.50, currentSEER := 0,
    useManualInput := true, manualHeatingCost := some 1000, manualCoolingCost := some 500 }

/-! ### Shared helper lemmas -/

/-- Both branches of the estimator end in a call to `updateCosts`. -/
theorem costEstimator_eq_updateCosts (inp : Inputs) :
    ∃ a b c d, costEstimator inp = updateCosts a b c d := by
  unfold costEstimator
  split
  · exact ⟨_, _, _, _, rfl⟩
  · exact ⟨_, _, _, _, rfl⟩

/-- Derived-field invariants of `updateCosts`, for arbitrary annual costs. -/
theorem updateCosts_invariants (a b c d : ℚ) :
    (updateCosts a b c d).annualSavings.total =
        (updateCosts a b c d).annualSavings.heating +
        (updateCosts a b c d).annualSavings.cooling ∧
    (updateCosts a b c d).monthlySavings.heating =
        (updateCosts a b c d).annualSavings.heating / 12 ∧
    (updateCosts a b c d).monthlySavings.cooling =
        (updateCosts a b c d).annualSavings.cooling / 12 ∧
    (updateCosts a b c d).monthlySavings.total =
        (updateCosts a b c d).annualSavings.total / 12 ∧
    ∀ m ∈ (updateCosts a b c d).monthlyData,
      m.savings = m.currentTotal - m.heatPumpTotal := by
  refine ⟨by simp [updateCosts], by simp [updateCosts], by simp [updateCosts],
    by simp [updateCosts], ?_⟩
  intro m hm
  simp only [updateCosts, List.mem_map] at hm
  obtain ⟨p, _, rfl⟩ := hm
  rfl

/-- Summing the monthly totals of `updateCosts` recovers the annual costs,
because each distribution sums to one. -/
theorem updateCosts_sums (a b c d : ℚ) :
    ((updateCosts a b c d).monthlyData.map MonthlyData.currentTotal).sum = a + b ∧
    ((updateCosts a b c d).monthlyData.map MonthlyData.heatPumpTotal).sum = c + d := by
  constructor <;>
  · simp [updateCosts, months, heatingDistribution, coolingDistribution]
    ring_nf

/-- Checked `updateCosts` never fails: its only divisions are by 12. -/
theorem updateCostsChecked_eq_some (a b c d : ℚ) :
    updateCostsChecked a b c d = some (updateCosts a b c d) := by
  norm_num [updateCostsChecked, updateCosts, cdiv]

/-- In manual mode the checked estimator always succeeds: every division has
a fixed non-zero constant denominator (the COP 3.5, the heat-pump SEER 18,
and 12); the user-supplied SEER is only ever multiplied. -/
theorem checked_eq_of_manual (inp : Inputs) (h : inp.useManualInput = true) :
    costEstimatorChecked inp = some (costEstimator inp) := by
  by_cases hc : inp.coolingSystem = CoolingSystem.noCooling <;>
    norm_num [costEstimatorChecked, costEstimator, h, hc, cdiv,
      heatPumpHeatingCOP, heatPumpCoolingSEER, updateCostsChecked_eq_some]

/-- In non-manual mode the checked estimator succeeds whenever No Cooling is
selected or the user-supplied SEER is non-zero: every other denominator is a
fixed non-zero constant. -/
theorem checked_eq_of_nonmanual (inp : Inputs) (h : inp.useManualInput = false)
    (hs : inp.coolingSystem = CoolingSystem.noCooling ∨ inp.currentSEER ≠ 0) :
    costEstimatorChecked inp = some (costEstimator inp) := by
  rcases hs with hc | hs
  · cases hh : inp.heatingSystem <;>
      norm_num [costEstimatorChecked, costEstimator, h, hc, hh, cdiv,
        heatPumpHeatingCOP, heatPumpCoolingSEER, heatingEfficiency,
        updateCostsChecked_eq_some]
  · by_cases hc : inp.coolingSystem = CoolingSystem.noCooling
    · cases hh : inp.heatingSystem <;>
        norm_num [costEstimatorChecked, costEstimator, h, hc, hh, cdiv,
          heatPumpHeatingCOP, heatPumpCoolingSEER, heatingEfficiency,
          updateCostsChecked_eq_some]
    · cases hh : inp.heatingSystem <;>
        norm_num [costEstimatorChecked, costEstimator, h, hc, hs, hh, cdiv,
          heatPumpHeatingCOP, heatPumpCoolingSEER, heatingEfficiency,
          updateCostsChecked_eq_some]

/-- In non-manual mode with cooling present and a zero user-supplied SEER, the
source divides the annual cooling BTU-hours by `3412 * (currentSEER / 10) = 0`:
the checked estimator fails there. -/
theorem checked_none_of_zero_seer (inp : Inputs) (h : inp.useManualInput = false)
    (hc : inp.coolingSystem ≠ CoolingSystem.noCooling) (hs : inp.currentSEER = 0) :
    costEstimatorChecked inp = none := by
  cases hh : inp.heatingSystem <;>
    norm_num [costEstimatorChecked, h, hc, hs, hh, cdiv, heatingEfficiency,
      heatPumpHeatingCOP, energyConsumptionHeating, seasonHoursHeating]

/-- The rate the non-manual heating formula multiplies by, for the selected
heating system (oil rate, electricity rate, or gas rate). -/
def selectedFuelRate (inp : Inputs) : ℚ :=
  match inp.heatingSystem with
  | .oilFurnace => inp.oilRate
  | .electricBaseboards => inp.electricityRate
  | .gasFurnace => inp.gasRate

/-! ### Claims -/

/-- C1: for every Inputs value, the Result satisfies
`annualSavings.total = annualSavings.heating + annualSavings.cooling`,
`monthlySavings.X = annualSavings.X / 12` for each category X, and every one
of the 12 monthly records has `savings = currentTotal - heatPumpTotal`. -/
theorem c1_result_invariants (inp : Inputs) :
    (costEstimator inp).annualSavings.total =
        (costEstimator inp).annualSavings.heating +
        (costEstimator inp).annualSavings.cooling ∧
    (costEstimator inp).monthlySavings.heating =
        (costEstimator inp).annualSavings.heating / 12 ∧
    (costEstimator inp).monthlySavings.cooling =
        (costEstimator inp).annualSavings.cooling / 12 ∧
    (costEstimator inp).monthlySavings.total =
        (costEstimator inp).annualSavings.total / 12 ∧
    ∀ m ∈ (costEstimator inp).monthlyData,
      m.savings = m.currentTotal - m.heatPumpTotal := by
  obtain ⟨a, b, c, d, heq⟩ := costEstimator_eq_updateCosts inp
  rw [heq]
  exact updateCosts_invariants a b c d

/-- Witness for C1 at the Scenario A configuration. -/
theorem c1_witness :
    (costEstimator scenarioA).annualSavings.total =
      (costEstimator scenarioA).annualSavings.heating +
      (costEstimator scenarioA).annualSavings.cooling :=
  (c1_result_invariants scenarioA).1

/-- C2: both fixed monthly distributions sum to 1, and consequently the sum of
the 12 monthly currentTotal values equals currentHeatingCost plus
currentCoolingCost, and likewise for the heat-pump totals (all exact over ℚ). -/
theorem c2_monthly_sums (inp : Inputs) :
    heatingDistribution.sum = 1 ∧
    coolingDistribution.sum = 1 ∧
    ((costEstimator inp).monthlyData.map MonthlyData.currentTotal).sum =
      (costEstimator inp).currentHeatingCost + (costEstimator inp).currentCoolingCost ∧
    ((costEstimator inp).monthlyData.map MonthlyData.heatPumpTotal).sum =
      (costEstimator inp).heatPumpHeatingCost + (costEstimator inp).heatPumpCoolingCost := by
  obtain ⟨a, b, c, d, heq⟩ := costEstimator_eq_updateCosts inp
  refine ⟨by norm_num [heatingDistribution], by norm_num [coolingDistribution], ?_, ?_⟩
  · rw [heq]; simpa [updateCosts] using (updateCosts_sums a b c d).1
  · rw [heq]; simpa [updateCosts] using (updateCosts_sums a b c d).2

/-- Witness for C2 at the Scenario A configuration. -/
theorem c2_witness :
    ((costEstimator scenarioA).monthlyData.map MonthlyData.currentTotal).sum =
      (costEstimator scenarioA).currentHeatingCost +
      (costEstimator scenarioA).currentCoolingCost :=
  (c2_monthly_sums scenarioA).2.2.1

/-- C3: in non-manual mode the heat-pump heating cost is
`(homeSize * 40 * 1200) / (3412 * 3.5)` times the electricity rate regardless
of the selected heating system; at the Scenario A configuration the current
heating cost is `(1500*40*1200)/(36000*0.80) * 1.20 = 3000` and the heat-pump
heating cost is `(1500*40*1200)/(3412*3.5) * 0.15`. -/
theorem c3_scenarioA_and_heat_pump_formula :
    (∀ inp : Inputs, inp.useManualInput = false →
      (costEstimator inp).heatPumpHeatingCost =
        (inp.homeSize * 40 * 1200) / (3412 * 3.5) * inp.electricityRate) ∧
    (costEstimator scenarioA).currentHeatingCost =
      (1500 * 40 * 1200) / (36000 * 0.80) * 1.20 ∧
    (costEstimator scenarioA).currentHeatingCost = 3000 ∧
    (costEstimator scenarioA).heatPumpHeatingCost =
      (1500 * 40 * 1200) / (3412 * 3.5) * 0.15 := by
  refine ⟨?_, ?_, ?_, ?_⟩
  · intro inp h
    simp [costEstimator, h, updateCosts, heatPumpHeatingCOP,
      energyConsumptionHeating, seasonHoursHeating]
  · norm_num [costEstimator, scenarioA, updateCosts, heatingEfficiency,
      energyConsumptionHeating, seasonHoursHeating]
  · norm_num [costEstimator, scenarioA, updateCosts, heatingEfficiency,
      energyConsumptionHeating, seasonHoursHeating]
  · norm_num [costEstimator, scenarioA, updateCosts, heatPumpHeatingCOP,
      energyConsumptionHeating, seasonHoursHeating]

/-- Witness for C3: the general heat-pump heating formula instantiated at the
Scenario A configuration. -/
theorem c3_witness :
    (costEstimator scenarioA).heatPumpHeatingCost =
      (scenarioA.homeSize * 40 * 1200) / (3412 * 3.5) * scenarioA.electricityRate :=
  c3_scenarioA_and_heat_pump_formula.1 scenarioA rfl

/-- C4: in manual mode with parsed costs H and C, the estimator returns
`heatPumpHeating = H / 3.5` and `heatPumpCooling = C * (currentSEER / 18)`
when cooling is present (0 otherwise); Scenario C instantiates this to
`1000 / 3.5` and `500 * (10 / 18)`, reproducing the asymmetric shape exactly. -/
theorem c4_manual_mode_formulas :
    (∀ inp : Inputs, inp.useManualInput = true →
      (costEstimator inp).heatPumpHeatingCost = parsedOr0 inp.manualHeatingCost / 3.5 ∧
      (costEstimator inp).heatPumpCoolingCost =
        (if inp.coolingSystem ≠ CoolingSystem.noCooling then
          parsedOr0 inp.manualCoolingCost * (inp.currentSEER / 18) else 0)) ∧
    (costEstimator scenarioC).heatPumpHeatingCost = 1000 / 3.5 ∧
    (costEstimator scenarioC).heatPumpCoolingCost = 500 * (10 / 18) := by
  refine ⟨?_, ?_, ?_⟩
  · intro inp h
    constructor
    · simp [costEstimator, h, updateCosts, heatPumpHeatingCOP]
      ring
    · by_cases hc : inp.coolingSystem = CoolingSystem.noCooling <;>
        simp [costEstimator, h, hc, updateCosts, heatPumpCoolingSEER]
  · norm_num [costEstimator, scenarioC, updateCosts, heatPumpHeatingCOP, parsedOr0]
  · norm_num [costEstimator, scenarioC, updateCosts, heatPumpCoolingSEER, parsedOr0]
    decide

/-- Witness for C4 at the Scenario C configuration. -/
theorem c4_witness :
    (costEstimator scenarioC).heatPumpHeatingCost =
      parsedOr0 scenarioC.manualHeatingCost / 3.5 :=
  (c4_manual_mode_formulas.1 scenarioC rfl).1

/-- C5 counterexample: in manual mode with No Cooling selected and a manual
cooling cost of 500, the estimator returns `currentCoolingCost = 500 ≠ 0`,
refuting the claim that No Cooling forces `currentCoolingCost = 0` in both
modes. -/
theorem c5_counterexample :
    noCoolingManualInput.coolingSystem = CoolingSystem.noCooling ∧
    (costEstimator noCoolingManualInput).currentCoolingCost = 500 ∧
    (costEstimator noCoolingManualInput).currentCoolingCost ≠ 0 := by
  refine ⟨rfl, ?_, ?_⟩ <;>
    norm_num [costEstimator, noCoolingManualInput, updateCosts, parsedOr0]

/-- C5 amended: with No Cooling selected, `heatPumpCoolingCost = 0` in both
modes regardless of SEER, and `currentCoolingCost = 0` in non-manual mode;
in manual mode `currentCoolingCost` equals the parsed manual cooling cost. -/
theorem c5_no_cooling_amended (inp : Inputs)
    (h : inp.coolingSystem = CoolingSystem.noCooling) :
    (costEstimator inp).heatPumpCoolingCost = 0 ∧
    (inp.useManualInput = false → (costEstimator inp).currentCoolingCost = 0) ∧
    (inp.useManualInput = true →
      (costEstimator inp).currentCoolingCost = parsedOr0 inp.manualCoolingCost) := by
  refine ⟨?_, ?_, ?_⟩
  · cases hm : inp.useManualInput <;> simp [costEstimator, hm, h, updateCosts]
  · intro hm; simp [costEstimator, hm, h, updateCosts]
  · intro hm; simp [costEstimator, hm, h, updateCosts]

/-- Witness for the amended C5 at a concrete manual No Cooling configuration. -/
theorem c5_witness :
    (costEstimator noCoolingManualInput).heatPumpCoolingCost = 0 :=
  (c5_no_cooling_amended noCoolingManualInput rfl).1

/-- C6: in manual mode an unparseable or missing cost string is treated as 0;
with both manual costs unparseable, all four annual costs, all savings, and
every monthly entry are 0. -/
theorem c6_unparseable_defaults_zero (inp : Inputs) (hm : inp.useManualInput = true) :
    (inp.manualHeatingCost = none → (costEstimator inp).currentHeatingCost = 0) ∧
    (inp.manualCoolingCost = none → (costEstimator inp).currentCoolingCost = 0) ∧
    (inp.manualHeatingCost = none → inp.manualCoolingCost = none →
      (costEstimator inp).currentHeatingCost = 0 ∧
      (costEstimator inp).currentCoolingCost = 0 ∧
      (costEstimator inp).heatPumpHeatingCost = 0 ∧
      (costEstimator inp).heatPumpCoolingCost = 0 ∧
      (costEstimator inp).annualSavings = ⟨0, 0, 0⟩ ∧
      (costEstimator inp).monthlySavings = ⟨0, 0, 0⟩ ∧
      ∀ m ∈ (costEstimator inp).monthlyData,
        m.currentTotal = 0 ∧ m.heatPumpTotal = 0 ∧ m.savings = 0) := by
  refine ⟨?_, ?_, ?_⟩
  · intro hh; simp [costEstimator, hm, hh, updateCosts, parsedOr0]
  · intro hc
    by_cases hns : inp.coolingSystem = CoolingSystem.noCooling <;>
      simp [costEstimator, hm, hc, hns, updateCosts, parsedOr0]
  · intro hh hc
    have he : costEstimator inp = updateCosts 0 0 0 0 := by
      by_cases hns : inp.coolingSystem = CoolingSystem.noCooling <;>
        simp [costEstimator, hm, hh, hc, hns, parsedOr0]
    rw [he]
    refine ⟨by simp [updateCosts], by simp [updateCosts], by simp [updateCosts],
      by simp [updateCosts], by simp [updateCosts], by simp [updateCosts], ?_⟩
    intro m hmem
    simp only [updateCosts, List.mem_map] at hmem
    obtain ⟨p, _, rfl⟩ := hmem
    simp

/-- Witness for C6 at the Scenario D configuration. -/
theorem c6_witness :
    (costEstimator scenarioD).currentHeatingCost = 0 ∧
    (costEstimator scenarioD).currentCoolingCost = 0 :=
  ⟨((c6_unparseable_defaults_zero scenarioD rfl).2.2 rfl rfl).1,
    ((c6_unparseable_defaults_zero scenarioD rfl).2.2 rfl rfl).2.1⟩

/-- C7 counterexample: division by a zero user-supplied SEER is NOT confined
to the manual-cost cooling scale factor.  At a non-manual configuration with
SEER 0 and Central AC, the checked estimator hits a zero denominator (the
`3412 * (currentSEER / 10)` divisor of the cooling formula) and fails, while
at a manual configuration with SEER 0 the checked estimator succeeds — the
manual scale factor multiplies by `currentSEER / 18` and never divides by the
user-supplied SEER. -/
theorem c7_counterexample :
    zeroSeerInput.useManualInput = false ∧
    costEstimatorChecked zeroSeerInput = none ∧
    zeroSeerManualInput.useManualInput = true ∧
    zeroSeerManualInput.currentSEER = 0 ∧
    costEstimatorChecked zeroSeerManualInput = some (costEstimator zeroSeerManualInput) :=
  ⟨rfl, checked_none_of_zero_seer zeroSeerInput rfl (by decide) rfl, rfl, rfl,
    checked_eq_of_manual zeroSeerManualInput rfl⟩

/-- C7 amended: no operation of the estimator can fail — every fixed
efficiency or SEER divisor is a non-zero constant — and division by a zero
user-supplied SEER is possible only through the non-manual cooling formula:
manual-mode evaluation is total for every input, and non-manual evaluation is
total whenever No Cooling is selected or the SEER is non-zero. -/
theorem c7_division_totality_amended (inp : Inputs) :
    (inp.useManualInput = true →
      costEstimatorChecked inp = some (costEstimator inp)) ∧
    (inp.useManualInput = false →
      inp.coolingSystem = CoolingSystem.noCooling ∨ inp.currentSEER ≠ 0 →
      costEstimatorChecked inp = some (costEstimator inp)) :=
  ⟨checked_eq_of_manual inp, checked_eq_of_nonmanual inp⟩

/-- Witness for the amended C7 at the Scenario C (manual) configuration. -/
theorem c7_witness :
    costEstimatorChecked scenarioC = some (costEstimator scenarioC) :=
  (c7_division_totality_amended scenarioC).1 rfl

/-- C8 counterexample: with every rate equal to zero, increasing the home size
from 1000 to 2000 leaves both `currentHeatingCost` and `heatPumpHeatingCost`
unchanged (both are 0), refuting unconditional strict monotonicity. -/
theorem c8_counterexample :
    zeroRateInput.useManualInput = false ∧
    zeroRateInput.homeSize < ({ zeroRateInput with homeSize := 2000 } : Inputs).homeSize ∧
    ¬ ((costEstimator zeroRateInput).currentHeatingCost <
        (costEstimator { zeroRateInput with homeSize := 2000 }).currentHeatingCost) ∧
    ¬ ((costEstimator zeroRateInput).heatPumpHeatingCost <
        (costEstimator { zeroRateInput with homeSize := 2000 }).heatPumpHeatingCost) := by
  refine ⟨rfl, by norm_num [zeroRateInput], ?_, ?_⟩ <;>
    norm_num [costEstimator, zeroRateInput, updateCosts, heatingEfficiency,
      heatPumpHeatingCOP, energyConsumptionHeating, seasonHoursHeating]

/-- C8 amended: in non-manual mode, holding every other input fixed and
strictly increasing homeSize, `currentHeatingCost` strictly increases provided
the rate of the selected heating fuel is positive — and is constant in
homeSize when that rate is zero — while `heatPumpHeatingCost` strictly
increases provided the electricity rate is positive, and is constant in
homeSize when the electricity rate is zero.  Each proviso stands on its own:
neither conclusion needs the other rate. -/
theorem c8_monotone_amended (inp : Inputs) (s1 s2 : ℚ)
    (hman : inp.useManualInput = false) (h12 : s1 < s2) :
    (0 < selectedFuelRate inp →
      (costEstimator { inp with homeSize := s1 }).currentHeatingCost <
        (costEstimator { inp with homeSize := s2 }).currentHeatingCost) ∧
    (0 < inp.electricityRate →
      (costEstimator { inp with homeSize := s1 }).heatPumpHeatingCost <
        (costEstimator { inp with homeSize := s2 }).heatPumpHeatingCost) ∧
    (selectedFuelRate inp = 0 →
      (costEstimator { inp with homeSize := s1 }).currentHeatingCost =
        (costEstimator { inp with homeSize := s2 }).currentHeatingCost) ∧
    (inp.electricityRate = 0 →
      (costEstimator { inp with homeSize := s1 }).heatPumpHeatingCost =
        (costEstimator { inp with homeSize := s2 }).heatPumpHeatingCost) := by
  refine ⟨?_, ?_, ?_, ?_⟩
  · intro hfuel
    cases hh : inp.heatingSystem <;>
    · simp only [selectedFuelRate, hh] at hfuel
      simp only [costEstimator, hman, Bool.false_eq_true, if_false, hh,
        updateCosts, energyConsumptionHeating, seasonHoursHeating,
        heatingEfficiency]
      rw [mul_lt_mul_right hfuel, div_lt_div_right (by norm_num),
        mul_lt_mul_right (by norm_num), mul_lt_mul_right (by norm_num)]
      exact h12
  · intro helec
    simp only [costEstimator, hman, Bool.false_eq_true, if_false,
      updateCosts, energyConsumptionHeating, seasonHoursHeating,
      heatPumpHeatingCOP]
    rw [mul_lt_mul_right helec, div_lt_div_right (by norm_num),
      mul_lt_mul_right (by norm_num), mul_lt_mul_right (by norm_num)]
    exact h12
  · intro hfuel
    cases hh : inp.heatingSystem <;>
    · simp only [selectedFuelRate, hh] at hfuel
      simp only [costEstimator, hman, Bool.false_eq_true, if_false, hh,
        updateCosts, energyConsumptionHeating, seasonHoursHeating,
        heatingEfficiency]
      rw [hfuel, mul_zero, mul_zero]
  · intro helec
    simp only [costEstimator, hman, Bool.false_eq_true, if_false,
      updateCosts, energyConsumptionHeating, seasonHoursHeating,
      heatPumpHeatingCOP]
    rw [helec, mul_zero, mul_zero]

/-- Witness for the amended C8: growing the Scenario A home from 1000 to 2000
square feet strictly increases the current heating cost (only the oil rate of
Scenario A is consulted for this half). -/
theorem c8_witness :
    (costEstimator { scenarioA with homeSize := 1000 }).currentHeatingCost <
      (costEstimator { scenarioA with homeSize := 2000 }).currentHeatingCost :=
  (c8_monotone_amended scenarioA 1000 2000 rfl (by norm_num)).1
    (by norm_num [selectedFuelRate, scenarioA])

/-- C9: the estimator is a pure function of its Inputs value — evaluating it
on equal inputs yields equal Results (the shallow embedding is deterministic
by construction: no mutable external state exists). -/
theorem c9_deterministic (inp1 inp2 : Inputs) (h : inp1 = inp2) :
    costEstimator inp1 = costEstimator inp2 := by rw [h]

/-- Witness for C9 at the Scenario A configuration. -/
theorem c9_witness : costEstimator scenarioA = costEstimator scenarioA :=
  c9_deterministic scenarioA scenarioA rfl

/-- C10: two Inputs values identical except for Central AC versus Window AC
produce identical Results in both modes, even though the per-variant base
SEER constants (10 for Central AC, 8 for Window AC) differ — they are never
used in the computation. -/
theorem c10_cooling_variant_irrelevant (inp : Inputs) :
    coolingBaseSEER CoolingSystem.centralAC = 10 ∧
    coolingBaseSEER CoolingSystem.windowAC = 8 ∧
    costEstimator { inp with coolingSystem := CoolingSystem.centralAC } =
      costEstimator { inp with coolingSystem := CoolingSystem.windowAC } := by
  refine ⟨rfl, rfl, ?_⟩
  cases hm : inp.useManualInput <;> simp [costEstimator, hm]

/-- Witness for C10 at the Scenario A configuration. -/
theorem c10_witness :
    costEstimator { scenarioA with coolingSystem := CoolingSystem.centralAC } =
      costEstimator { scenarioA with coolingSystem := CoolingSystem.windowAC } :=
  (c10_cooling_variant_irrelevant scenarioA).2.2

end EnergyCalculator
